import Mathlib

/-!
Shallow embedding of the generation-orchestration core of the
"From-2-image-get-One" repository (src/services/geminiService.ts and
src/constants.ts), together with proofs checking the natural-language
specification against it.

JavaScript semantics that matter here and how they are modelled:
  * optional / possibly-undefined fields become `Option`;
  * JS truthiness of a string is "nonempty", of `undefined` is false, and of
    an array (even an empty one) is true;
  * accessing a property of `undefined` raises a TypeError; such a crash is
    modelled as an `Except.error` whose `JsErr.name` is `"TypeError"` (the
    exact engine-produced message text is abstracted, but kept free of the
    substrings the error classifier looks for, as real engine messages are);
  * `throw new Error(msg)` is modelled as an `Except.error` with name
    `"Error"`, no status, and message `msg`;
  * `String.prototype.includes` is substring containment (`jsIncludes`).
-/

namespace GeminiService

/-- Model identifier for the Standard tier (src/constants.ts line 6). -/
def MODEL_STANDARD : String := "gemini-2.5-flash-image"

/-- Model identifier for the High tier (src/constants.ts line 7). -/
def MODEL_HIGH_RES : String := "gemini-3-pro-image-preview"

/-- Quality tier enumeration (src/types via part_000: ImageQuality). -/
inductive ImageQuality where
  | STANDARD
  | HIGH
deriving DecidableEq, Repr

/-- Inline binary data of a content part; `data` may be absent. -/
structure InlineData where
  mimeType : String
  data : Option String
deriving DecidableEq, Repr

/-- A content part: may carry text and/or inline data, either possibly absent. -/
structure Part where
  text : Option String := none
  inlineData : Option InlineData := none
deriving DecidableEq, Repr

/-- Candidate content: the parts list itself may be absent. -/
structure Content where
  parts : Option (List Part)
deriving DecidableEq, Repr

/-- A response candidate; its content may be absent. -/
structure Candidate where
  content : Option Content
deriving DecidableEq, Repr

/-- A generation response: zero or more candidates, field possibly absent. -/
structure GenResponse where
  candidates : Option (List Candidate)
deriving DecidableEq, Repr

/-- A JavaScript error value as the orchestrator observes it: the `name`
distinguishes thrown `Error`s from runtime `TypeError`s and API errors, and
`status` / `message` are the two fields the classifiers read. -/
structure JsErr where
  name : String
  status : Option Nat
  message : Option String
deriving DecidableEq, Repr

deriving instance DecidableEq for Except

/-- The value `new Error(msg)`: no status, the given message. -/
def jsError (msg : String) : JsErr :=
  { name := "Error", status := none, message := some msg }

/-- A runtime TypeError raised by reading a property of `undefined`. -/
def typeError (msg : String) : JsErr :=
  { name := "TypeError", status := none, message := some msg }

/-- Whether the first list of characters starts the second. -/
def headMatches : List Char → List Char → Bool
  | [], _ => true
  | _ :: _, [] => false
  | a :: as, b :: bs => a == b && headMatches as bs

/-- Whether the first list of characters occurs contiguously in the second. -/
def containsSeq (needle : List Char) : List Char → Bool
  | [] => headMatches needle []
  | b :: bs => headMatches needle (b :: bs) || containsSeq needle bs

/-- JS `haystack.includes(needle)` for the non-empty needles used here:
substring containment on the character sequences. -/
def jsIncludes (haystack needle : String) : Bool :=
  containsSeq needle.data haystack.data

/-- Truthiness test and payload of a part as used by the extraction loop
(`part.inlineData && part.inlineData.data`): returns the data string when the
part has inline data whose `data` field is present and non-empty. -/
def truthyData (p : Part) : Option String :=
  match p.inlineData with
  | none => none
  | some d =>
    match d.data with
    | none => none
    | some s => if s = "" then none else some s

/-- The fixed no-image message (geminiService.ts line 74). -/
def NO_IMAGE_MSG : String :=
  "No image generated. The model might have refused the request."

/-- The optional chain `response.candidates?.[0]?.content?.parts?.[0]?.text`
with JS truthiness (non-empty text) applied. -/
def leadingText (response : GenResponse) : Option String :=
  match response.candidates with
  | some (c :: _) =>
    match c.content with
    | some ct =>
      match ct.parts with
      | some (p :: _) =>
        match p.text with
        | some t => if t = "" then none else some t
        | none => none
      | _ => none
    | none => none
  | _ => none

/-- Code after the scan loop of `extractImageFromResponse` (lines 69-74):
throw the leading text when present and non-empty, else the fixed message. -/
def afterScan (response : GenResponse) : Except JsErr String :=
  match leadingText response with
  | some t => .error (jsError t)
  | none => .error (jsError NO_IMAGE_MSG)

/-- Embedding of `extractImageFromResponse` (geminiService.ts lines 60-75).
The guard `response.candidates && response.candidates[0].content.parts`
evaluates `candidates[0].content` without optional chaining, so an empty
candidates array (truthy in JS) or an absent `content` raises a TypeError. -/
def extractImageFromResponse (response : GenResponse) : Except JsErr String :=
  match response.candidates with
  | none => afterScan response
  | some [] =>
    .error (typeError "Cannot read properties of undefined (reading content)")
  | some (c :: _) =>
    match c.content with
    | none =>
      .error (typeError "Cannot read properties of undefined (reading parts)")
    | some ct =>
      match ct.parts with
      | none => afterScan response
      | some ps =>
        match ps.findSome? truthyData with
        | some d => .ok ("data:image/png;base64," ++ d)
        | none => afterScan response

/-- The image generation configuration: aspect ratio always present, image
size hint optional (geminiService.ts lines 23-30). -/
structure ImageConfig where
  aspectRatio : String
  imageSize : Option String
deriving DecidableEq, Repr

/-- A generation request as handed to the external capability: a model
identifier, the ordered content parts, and the image configuration. -/
structure GenRequest where
  model : String
  parts : List Part
  imageConfig : ImageConfig
deriving DecidableEq, Repr

/-- The fixed framing around the user prompt (geminiService.ts line 37). -/
def framedPrompt (prompt : String) : String :=
  "Merge these two images into one based on this description: " ++ prompt ++
    ". Ensure the result is a single cohesive image."

/-- Embedding of the `makeRequest` helper (geminiService.ts lines 22-57):
builds the request for a given model; `imageSize` is set to "2K" exactly when
the model is the high-res model. -/
def makeRequest (prompt image1Base64 image1Mime image2Base64 image2Mime aspectRatio : String) (model : String) : GenRequest :=
  { model := model
    parts :=
      [{ text := some (framedPrompt prompt), inlineData := none },
       { text := none, inlineData := some { mimeType := image1Mime, data := some image1Base64 } },
       { text := none, inlineData := some { mimeType := image2Mime, data := some image2Base64 } }]
    imageConfig :=
      { aspectRatio := aspectRatio
        imageSize := if model = MODEL_HIGH_RES then some "2K" else none } }

/-- The initial target model for a quality tier (geminiService.ts lines
78-79): High maps to the high-res model, Standard to the standard model. -/
def tierModel (quality : ImageQuality) : String :=
  if quality = ImageQuality.HIGH then MODEL_HIGH_RES else MODEL_STANDARD

/-- Result of one capability invocation: either a response or a raised
invocation-level error. -/
inductive InvokeResult where
  | ok (response : GenResponse)
  | err (e : JsErr)
deriving DecidableEq, Repr

/-- Embedding of the inner-catch classification (geminiService.ts lines
88-92): status 403 or 404, or message containing "PERMISSION_DENIED" or
"403". -/
def isPermissionOrNotFoundError (e : JsErr) : Bool :=
  e.status == some 403 || e.status == some 404 ||
    (match e.message with
     | some m => jsIncludes m "PERMISSION_DENIED" || jsIncludes m "403"
     | none => false)

/-- The fixed user-facing access-denied message (geminiService.ts line 110). -/
def ACCESS_DENIED_MSG : String :=
  "Permission denied. The API key does not have access to the generative AI models. Please check that the API key is valid and the API is enabled in your Google Cloud project."

/-- Embedding of the outer-catch error mapping (geminiService.ts lines
105-113): status 403 or message containing "PERMISSION_DENIED" becomes the
fixed access-denied error; every other error is rethrown unchanged. -/
def mapOuterError (e : JsErr) : JsErr :=
  if e.status == some 403 ||
      (match e.message with
       | some m => jsIncludes m "PERMISSION_DENIED"
       | none => false)
  then jsError ACCESS_DENIED_MSG
  else e

/-- One attempt as performed inside the inner try (geminiService.ts lines
84-85 and 98-99): invoke the capability on the request, then extract; an
invocation-level error propagates as-is. -/
def attempt (invoke : GenRequest → InvokeResult) (req : GenRequest) : Except JsErr String :=
  match invoke req with
  | .ok response => extractImageFromResponse response
  | .err e => .error e

/-- The missing-credential message (geminiService.ts line 16). -/
def API_KEY_MISSING_MSG : String :=
  "API Key is missing. Please ensure process.env.API_KEY is set."

/-- Embedding of `generateMergedImage` (geminiService.ts lines 5-115). The
capability is modelled by the `invoke` oracle; alongside the outcome the
function returns the list of requests actually issued, in order, so that
"how many attempts were made and with which model" is provable. `apiKey`
is `none` when `process.env.API_KEY` is absent; the empty string is falsy
in JS and likewise short-circuits. -/
def generateMergedImage (apiKey : Option String) (image1Base64 image1Mime image2Base64 image2Mime prompt : String) (aspectRatio : String) (quality : ImageQuality) (invoke : GenRequest → InvokeResult) : Except JsErr String × List GenRequest :=
  if apiKey = none ∨ apiKey = some "" then
    (.error (jsError API_KEY_MISSING_MSG), [])
  else
    match attempt invoke (makeRequest prompt image1Base64 image1Mime image2Base64 image2Mime aspectRatio (tierModel quality)) with
    | .ok s => (.ok s, [makeRequest prompt image1Base64 image1Mime image2Base64 image2Mime aspectRatio (tierModel quality)])
    | .error firstError =>
      if quality == ImageQuality.HIGH && isPermissionOrNotFoundError firstError then
        match attempt invoke (makeRequest prompt image1Base64 image1Mime image2Base64 image2Mime aspectRatio MODEL_STANDARD) with
        | .ok s =>
          (.ok s, [makeRequest prompt image1Base64 image1Mime image2Base64 image2Mime aspectRatio (tierModel quality),
                   makeRequest prompt image1Base64 image1Mime image2Base64 image2Mime aspectRatio MODEL_STANDARD])
        | .error e2 =>
          (.error (mapOuterError e2), [makeRequest prompt image1Base64 image1Mime image2Base64 image2Mime aspectRatio (tierModel quality),
                                       makeRequest prompt image1Base64 image1Mime image2Base64 image2Mime aspectRatio MODEL_STANDARD])
      else
        (.error (mapOuterError firstError), [makeRequest prompt image1Base64 image1Mime image2Base64 image2Mime aspectRatio (tierModel quality)])

/-- Whether an extraction / generation result is a success. -/
def exceptIsOk : Except JsErr String → Bool
  | .ok _ => true
  | .error _ => false

/-- A response whose only part is the bare text "403" (a refusal text). -/
def respText403 : GenResponse :=
  { candidates := some [{ content := some { parts := some [{ text := some "403", inlineData := none }] } }] }

/-- A response whose only part is a refusal text containing "PERMISSION_DENIED". -/
def respTextPD : GenResponse :=
  { candidates := some [{ content := some { parts := some [{ text := some "PERMISSION_DENIED refused", inlineData := none }] } }] }

/-- A response whose only part is the refusal text "PERMISSION_DENIED: cannot comply". -/
def respTextPDColon : GenResponse :=
  { candidates := some [{ content := some { parts := some [{ text := some "PERMISSION_DENIED: cannot comply", inlineData := none }] } }] }

/-- A response carrying inline PNG data `d` in its only part. -/
def respInline (d : String) : GenResponse :=
  { candidates := some [{ content := some { parts := some [{ text := none, inlineData := some { mimeType := "image/png", data := some d } }] } }] }

/-- An invocation-level 403 error. -/
def err403 : JsErr := { name := "ApiError", status := some 403, message := some "denied" }

/-- An invocation-level 404 error whose message carries no classifier substring. -/
def err404 : JsErr := { name := "ApiError", status := some 404, message := some "Not Found" }

/-- An invocation-level 500 error. -/
def err500 : JsErr := { name := "ApiError", status := some 500, message := some "server error" }

/-- An oracle that denies the high-res model with a 403 and answers the
standard model with inline data "BBBB". -/
def invokeHigh403 : GenRequest → InvokeResult := fun req =>
  if req.model = MODEL_HIGH_RES then .err err403 else .ok (respInline "BBBB")

example :
    extractImageFromResponse { candidates := none } =
      .error (jsError NO_IMAGE_MSG) := by decide

example :
    extractImageFromResponse { candidates := some [] } =
      .error (typeError "Cannot read properties of undefined (reading content)") := by
  decide

example :
    extractImageFromResponse
      { candidates := some [{ content := some { parts := some [{ text := some "hi" }, { inlineData := some { mimeType := "image/jpeg", data := some "" } }, { inlineData := some { mimeType := "image/jpeg", data := some "QUJD" } }] } }] } =
      .ok "data:image/png;base64,QUJD" := by decide

example : jsIncludes "abc 403 def" "403" = true := by decide

example : jsIncludes "Permission denied." "PERMISSION_DENIED" = false := by decide

/-- Scratch: end-to-end scenario A (Standard tier, inline data "AAAA"). -/
example :
    (generateMergedImage (some "k") "A" "image/png" "B" "image/png" "p" "1:1" ImageQuality.STANDARD
      (fun _ => .ok { candidates := some [{ content := some { parts := some [{ inlineData := some { mimeType := "image/png", data := some "AAAA" } }] } }] })).1 =
      .ok "data:image/png;base64,AAAA" := by decide

/-- Scratch: end-to-end scenario B (High tier, 403 then Standard succeeds). -/
example :
    (generateMergedImage (some "k") "A" "image/png" "B" "image/png" "p" "1:1" ImageQuality.HIGH
      (fun req =>
        if req.model = MODEL_HIGH_RES then .err { name := "ApiError", status := some 403, message := some "denied" }
        else .ok { candidates := some [{ content := some { parts := some [{ inlineData := some { mimeType := "image/png", data := some "BBBB" } }] } }] })) =
      (.ok "data:image/png;base64,BBBB",
       [makeRequest "p" "A" "image/png" "B" "image/png" "1:1" MODEL_HIGH_RES,
        makeRequest "p" "A" "image/png" "B" "image/png" "1:1" MODEL_STANDARD]) := by decide

/-- Scratch: end-to-end scenario C (High tier, 500, no fallback). -/
example :
    (generateMergedImage (some "k") "A" "image/png" "B" "image/png" "p" "1:1" ImageQuality.HIGH
      (fun _ => .err { name := "ApiError", status := some 500, message := some "server error" })) =
      (.error { name := "ApiError", status := some 500, message := some "server error" },
       [makeRequest "p" "A" "image/png" "B" "image/png" "1:1" MODEL_HIGH_RES]) := by decide

/-- Scratch: extraction failure whose text contains "403" DOES trigger
fallback on the High tier (inner catch wraps extraction too). -/
example :
    ((generateMergedImage (some "k") "A" "image/png" "B" "image/png" "p" "1:1" ImageQuality.HIGH
      (fun _ => .ok { candidates := some [{ content := some { parts := some [{ text := some "403" }] } }] })).2).length = 2 := by decide

/-- Helper: unfolding of the extractor on a response with a first candidate. -/
theorem extract_cons (c : Candidate) (cs : List Candidate) :
    extractImageFromResponse { candidates := some (c :: cs) } =
      match c.content with
      | none => .error (typeError "Cannot read properties of undefined (reading parts)")
      | some ct =>
        match ct.parts with
        | none => afterScan { candidates := some (c :: cs) }
        | some ps =>
          match ps.findSome? truthyData with
          | some d => .ok ("data:image/png;base64," ++ d)
          | none => afterScan { candidates := some (c :: cs) } := rfl

/-- Helper: `afterScan` always produces an error, never a success. -/
theorem afterScan_not_ok (r : GenResponse) : exceptIsOk (afterScan r) = false := by
  unfold afterScan
  split <;> rfl

/-- Helper: any error produced by the response extractor is a thrown `Error`
or `TypeError`: it has no `status` field and its `message` is present. -/
theorem extract_error_shape (r : GenResponse) (e : JsErr)
    (h : extractImageFromResponse r = .error e) :
    e.status = none ∧ ∃ m, e.message = some m := by
  have hAfter : ∀ r2 : GenResponse, afterScan r2 = Except.error e →
      e.status = none ∧ ∃ m, e.message = some m := by
    intro r2 h2
    unfold afterScan at h2
    split at h2 <;>
      (simp only [Except.error.injEq] at h2; subst h2; exact ⟨rfl, _, rfl⟩)
  unfold extractImageFromResponse at h
  split at h
  · exact hAfter _ h
  · simp only [Except.error.injEq] at h; subst h; exact ⟨rfl, _, rfl⟩
  · split at h
    · simp only [Except.error.injEq] at h; subst h; exact ⟨rfl, _, rfl⟩
    · split at h
      · exact hAfter _ h
      · split at h
        · exact absurd h (by simp)
        · exact hAfter _ h

/-- C3: whenever the first candidate of a response contains, at any position
among its parts, a part carrying inline data (present and non-empty), the
Response Extractor returns Success with the string "data:image/png;base64,"
followed by the inline data of the (first) such part, whatever MIME type the
source reported. -/
theorem c3_inline_data_png_success (cs : List Candidate) (ct : Content) (ps : List Part) (c : Candidate) (p0 : Part) (d0 : String)
    (hc : c.content = some ct) (hp : ct.parts = some ps)
    (hmem : p0 ∈ ps) (hd : truthyData p0 = some d0) :
    ∃ p1 ∈ ps, ∃ d1, truthyData p1 = some d1 ∧
      extractImageFromResponse { candidates := some (c :: cs) } =
        .ok ("data:image/png;base64," ++ d1) := by
  cases hfind : ps.findSome? truthyData with
  | none =>
    exact absurd (List.findSome?_eq_none_iff.mp hfind p0 hmem) (by simp [hd])
  | some d1 =>
    obtain ⟨p1, hp1mem, hp1⟩ := List.exists_of_findSome?_eq_some hfind
    refine ⟨p1, hp1mem, d1, hp1, ?_⟩
    simp only [extract_cons, hc, hp, hfind]

/-- C3 witness: a response whose first candidate carries inline JPEG-tagged
data "QUJD" in third part position is extracted as the PNG data URI. -/
theorem c3_inline_data_png_success_witness :
    ∃ p1 ∈ [({ text := some "hi", inlineData := none } : Part),
            { text := none, inlineData := some { mimeType := "image/jpeg", data := some "" } },
            { text := none, inlineData := some { mimeType := "image/jpeg", data := some "QUJD" } }],
      ∃ d1, truthyData p1 = some d1 ∧
        extractImageFromResponse { candidates := some [{ content := some { parts := some [{ text := some "hi", inlineData := none }, { text := none, inlineData := some { mimeType := "image/jpeg", data := some "" } }, { text := none, inlineData := some { mimeType := "image/jpeg", data := some "QUJD" } }] } }] } =
          .ok ("data:image/png;base64," ++ d1) :=
  c3_inline_data_png_success [] _ _ _
    { text := none, inlineData := some { mimeType := "image/jpeg", data := some "QUJD" } }
    "QUJD" rfl rfl (by decide) (by decide)

/-- C4: on a response whose `candidates` field is an empty list, the
extractor does not produce the fixed no-image failure: evaluating
`candidates[0].content` on the empty (but truthy) array raises a TypeError,
which is a different error value; the fixed no-image failure is produced
only when the `candidates` field is absent. -/
theorem c4_empty_candidates_typeerror :
    extractImageFromResponse { candidates := some [] } =
      .error (typeError "Cannot read properties of undefined (reading content)")
    ∧ extractImageFromResponse { candidates := none } = .error (jsError NO_IMAGE_MSG)
    ∧ ((typeError "Cannot read properties of undefined (reading content)").name == "Error") = false
    ∧ ((typeError "Cannot read properties of undefined (reading content)").message == some NO_IMAGE_MSG) = false := by
  exact ⟨by decide, by decide, by decide, by decide⟩

/-- C5: the request configuration carries a size hint exactly for the High
tier: High maps to the high-res model identifier with image size "2K", and
Standard maps to the standard model identifier with no size hint. -/
theorem c5_size_hint_iff_high (p i1 i1m i2 i2m ar : String) :
    (∀ q : ImageQuality,
      ((makeRequest p i1 i1m i2 i2m ar (tierModel q)).imageConfig.imageSize).isSome = (q == ImageQuality.HIGH))
    ∧ tierModel ImageQuality.HIGH = MODEL_HIGH_RES
    ∧ (makeRequest p i1 i1m i2 i2m ar MODEL_HIGH_RES).imageConfig.imageSize = some "2K"
    ∧ tierModel ImageQuality.STANDARD = MODEL_STANDARD
    ∧ (makeRequest p i1 i1m i2 i2m ar MODEL_STANDARD).imageConfig.imageSize = none := by
  refine ⟨fun q => ?_, by decide, by simp [makeRequest], by decide, by simp [makeRequest, MODEL_STANDARD, MODEL_HIGH_RES]⟩
  cases q <;> simp [makeRequest, tierModel, MODEL_STANDARD, MODEL_HIGH_RES]

/-- C6: every request the orchestrator issues has the fixed part order —
the framed merge instruction with the raw prompt interpolated verbatim,
then the inline data of image A, then that of image B — and passes the
aspect ratio through in its configuration. -/
theorem c6_request_parts_order (key i1 i1m i2 i2m p ar : String) (q : ImageQuality) (invoke : GenRequest → InvokeResult) (req : GenRequest)
    (hmem : req ∈ (generateMergedImage (some key) i1 i1m i2 i2m p ar q invoke).2) :
    req.parts =
      [{ text := some ("Merge these two images into one based on this description: " ++ p ++ ". Ensure the result is a single cohesive image."), inlineData := none },
       { text := none, inlineData := some { mimeType := i1m, data := some i1 } },
       { text := none, inlineData := some { mimeType := i2m, data := some i2 } }]
    ∧ req.imageConfig.aspectRatio = ar := by
  have hshape : ∀ m : String,
      (makeRequest p i1 i1m i2 i2m ar m).parts =
        [{ text := some ("Merge these two images into one based on this description: " ++ p ++ ". Ensure the result is a single cohesive image."), inlineData := none },
         { text := none, inlineData := some { mimeType := i1m, data := some i1 } },
         { text := none, inlineData := some { mimeType := i2m, data := some i2 } }]
      ∧ (makeRequest p i1 i1m i2 i2m ar m).imageConfig.aspectRatio = ar :=
    fun m => ⟨rfl, rfl⟩
  unfold generateMergedImage at hmem
  split at hmem
  · simp at hmem
  · split at hmem
    · rw [List.mem_singleton] at hmem; subst hmem; exact hshape _
    · split at hmem
      · split at hmem <;>
          (simp only [List.mem_cons, List.mem_singleton, List.not_mem_nil, or_false] at hmem;
           rcases hmem with rfl | rfl <;> exact hshape _)
      · rw [List.mem_singleton] at hmem; subst hmem; exact hshape _

/-- C6 witness: with a Standard-tier call against an always-failing oracle,
the (single) issued request exhibits the fixed part order and aspect ratio. -/
theorem c6_request_parts_order_witness :
    (makeRequest "p" "A" "image/png" "B" "image/jpeg" "1:1" MODEL_STANDARD).parts =
      [{ text := some ("Merge these two images into one based on this description: " ++ "p" ++ ". Ensure the result is a single cohesive image."), inlineData := none },
       { text := none, inlineData := some { mimeType := "image/png", data := some "A" } },
       { text := none, inlineData := some { mimeType := "image/jpeg", data := some "B" } }]
    ∧ (makeRequest "p" "A" "image/png" "B" "image/jpeg" "1:1" MODEL_STANDARD).imageConfig.aspectRatio = "1:1" :=
  c6_request_parts_order "k" "A" "image/png" "B" "image/jpeg" "p" "1:1" ImageQuality.STANDARD
    (fun _ => .err err500) (makeRequest "p" "A" "image/png" "B" "image/jpeg" "1:1" MODEL_STANDARD)
    (by decide)

/-- C7: a generation call without an API credential (absent, or the falsy
empty string) fails with the fixed missing-key error and issues no request
at all; the message differs from every other fixed message of the core. -/
theorem c7_missing_key_preflight (i1 i1m i2 i2m p ar : String) (q : ImageQuality) (invoke : GenRequest → InvokeResult) :
    generateMergedImage none i1 i1m i2 i2m p ar q invoke = (.error (jsError API_KEY_MISSING_MSG), [])
    ∧ generateMergedImage (some "") i1 i1m i2 i2m p ar q invoke = (.error (jsError API_KEY_MISSING_MSG), [])
    ∧ (API_KEY_MISSING_MSG == ACCESS_DENIED_MSG) = false
    ∧ (API_KEY_MISSING_MSG == NO_IMAGE_MSG) = false := by
  exact ⟨by simp [generateMergedImage], by simp [generateMergedImage], by decide, by decide⟩

/-- C10: a part whose inline data is absent, or whose data field is absent
or the empty string, is skipped by the scan and can never produce Success:
prepending such a part leaves the scan unchanged, and a first candidate all
of whose parts are such falls through to the text / no-image branches. -/
theorem c10_untruthy_inline_parts_skipped (c : Candidate) (cs : List Candidate) (ct : Content) (ps : List Part) (pbad : Part)
    (hc : c.content = some ct) (hp : ct.parts = some ps)
    (hall : ∀ x ∈ ps, truthyData x = none) (hbad : truthyData pbad = none) :
    List.findSome? truthyData (pbad :: ps) = List.findSome? truthyData ps
    ∧ extractImageFromResponse { candidates := some (c :: cs) } = afterScan { candidates := some (c :: cs) }
    ∧ exceptIsOk (extractImageFromResponse { candidates := some (c :: cs) }) = false := by
  have hskip : List.findSome? truthyData (pbad :: ps) = List.findSome? truthyData ps :=
    List.findSome?_cons_of_isNone _ (by simp [hbad])
  have hnone : ps.findSome? truthyData = none := List.findSome?_eq_none_iff.mpr hall
  have hext : extractImageFromResponse { candidates := some (c :: cs) } = afterScan { candidates := some (c :: cs) } := by
    simp only [extract_cons, hc, hp, hnone]
  exact ⟨hskip, hext, by rw [hext]; exact afterScan_not_ok _⟩

/-- C10 witness: a first candidate whose parts carry inline data with an
empty data string and an absent data field is skipped and falls through. -/
theorem c10_untruthy_inline_parts_skipped_witness :
    List.findSome? truthyData
        [({ text := none, inlineData := some { mimeType := "image/png", data := some "" } } : Part),
         { text := some "no", inlineData := some { mimeType := "image/png", data := none } }]
      = List.findSome? truthyData [({ text := some "no", inlineData := some { mimeType := "image/png", data := none } } : Part)]
    ∧ extractImageFromResponse { candidates := some [{ content := some { parts := some [({ text := some "no", inlineData := some { mimeType := "image/png", data := none } } : Part)] } }] }
        = afterScan { candidates := some [{ content := some { parts := some [({ text := some "no", inlineData := some { mimeType := "image/png", data := none } } : Part)] } }] }
    ∧ exceptIsOk (extractImageFromResponse { candidates := some [{ content := some { parts := some [({ text := some "no", inlineData := some { mimeType := "image/png", data := none } } : Part)] } }] }) = false :=
  c10_untruthy_inline_parts_skipped _ [] _ _
    { text := none, inlineData := some { mimeType := "image/png", data := some "" } }
    rfl rfl (by decide) (by decide)

/-- Helper: unfolding of the extractor on a response known to have a first
candidate. -/
theorem extract_eq_of_candidates_cons (r : GenResponse) (c : Candidate) (cs : List Candidate)
    (hr : r.candidates = some (c :: cs)) :
    extractImageFromResponse r =
      match c.content with
      | none => .error (typeError "Cannot read properties of undefined (reading parts)")
      | some ct =>
        match ct.parts with
        | none => afterScan r
        | some ps =>
          match ps.findSome? truthyData with
          | some d => .ok ("data:image/png;base64," ++ d)
          | none => afterScan r := by
  unfold extractImageFromResponse
  rw [hr]

/-- Helper: with a truthy key, a successful first attempt is returned after a
single request. -/
theorem gen_first_ok (key i1 i1m i2 i2m p ar : String) (hk : key ≠ "") (q : ImageQuality) (invoke : GenRequest → InvokeResult) (s : String)
    (hatt : attempt invoke (makeRequest p i1 i1m i2 i2m ar (tierModel q)) = .ok s) :
    generateMergedImage (some key) i1 i1m i2 i2m p ar q invoke =
      (.ok s, [makeRequest p i1 i1m i2 i2m ar (tierModel q)]) := by
  unfold generateMergedImage
  rw [if_neg (by simp [hk]), hatt]

/-- Helper: with a truthy key, a failing first attempt that does not meet the
fallback condition terminates after a single request with the outer-mapped
error. -/
theorem gen_first_error_no_fallback (key i1 i1m i2 i2m p ar : String) (hk : key ≠ "") (q : ImageQuality) (invoke : GenRequest → InvokeResult) (fe : JsErr)
    (hatt : attempt invoke (makeRequest p i1 i1m i2 i2m ar (tierModel q)) = .error fe)
    (hcls : (q == ImageQuality.HIGH && isPermissionOrNotFoundError fe) = false) :
    generateMergedImage (some key) i1 i1m i2 i2m p ar q invoke =
      (.error (mapOuterError fe), [makeRequest p i1 i1m i2 i2m ar (tierModel q)]) := by
  unfold generateMergedImage
  rw [if_neg (by simp [hk]), hatt]
  simp [hcls]

/-- Helper: with a truthy key, a failing first attempt that meets the
fallback condition leads to a second, Standard-model attempt whose result is
terminal. -/
theorem gen_first_error_fallback (key i1 i1m i2 i2m p ar : String) (hk : key ≠ "") (q : ImageQuality) (invoke : GenRequest → InvokeResult) (fe : JsErr)
    (hatt : attempt invoke (makeRequest p i1 i1m i2 i2m ar (tierModel q)) = .error fe)
    (hcls : (q == ImageQuality.HIGH && isPermissionOrNotFoundError fe) = true) :
    generateMergedImage (some key) i1 i1m i2 i2m p ar q invoke =
      (match attempt invoke (makeRequest p i1 i1m i2 i2m ar MODEL_STANDARD) with
       | .ok s => (.ok s, [makeRequest p i1 i1m i2 i2m ar (tierModel q), makeRequest p i1 i1m i2 i2m ar MODEL_STANDARD])
       | .error e2 => (.error (mapOuterError e2), [makeRequest p i1 i1m i2 i2m ar (tierModel q), makeRequest p i1 i1m i2 i2m ar MODEL_STANDARD])) := by
  unfold generateMergedImage
  rw [if_neg (by simp [hk]), hatt]
  simp [hcls]

/-- C1 counterexample: with an oracle that never raises an invocation-level
error (it always returns a response, whose only part is the text "403"), a
High-tier call still issues two requests: the fallback is triggered by the
extraction failure, not by an invocation-level AccessDenied error. -/
theorem c1_counterexample :
    extractImageFromResponse respText403 = .error (jsError "403")
    ∧ ((generateMergedImage (some "k") "A" "image/png" "B" "image/png" "p" "1:1" ImageQuality.HIGH
          (fun _ => InvokeResult.ok respText403)).2).length = 2 :=
  ⟨by decide, by decide⟩

/-- C1 amended: a fallback attempt occurs iff the tier is High and the first
attempt — invocation and extraction combined — raises an error matching the
AccessDenied patterns; at most two requests are ever issued; the second
request targets the Standard model with no size hint; and a first-attempt
error that does not meet the fallback condition propagates (through the
outer message mapping) with no second attempt. -/
theorem c1_fallback_characterization (key i1 i1m i2 i2m p ar : String) (hk : key ≠ "") (q : ImageQuality) (invoke : GenRequest → InvokeResult) :
    (((generateMergedImage (some key) i1 i1m i2 i2m p ar q invoke).2).length = 2 ↔
      q = ImageQuality.HIGH ∧ ∃ e, attempt invoke (makeRequest p i1 i1m i2 i2m ar (tierModel q)) = .error e ∧ isPermissionOrNotFoundError e = true)
    ∧ ((generateMergedImage (some key) i1 i1m i2 i2m p ar q invoke).2 = [makeRequest p i1 i1m i2 i2m ar (tierModel q)]
        ∨ (generateMergedImage (some key) i1 i1m i2 i2m p ar q invoke).2 =
            [makeRequest p i1 i1m i2 i2m ar (tierModel q), makeRequest p i1 i1m i2 i2m ar MODEL_STANDARD])
    ∧ (makeRequest p i1 i1m i2 i2m ar MODEL_STANDARD).model = MODEL_STANDARD
    ∧ (makeRequest p i1 i1m i2 i2m ar MODEL_STANDARD).imageConfig.imageSize = none
    ∧ (∀ e, attempt invoke (makeRequest p i1 i1m i2 i2m ar (tierModel q)) = .error e →
        (q == ImageQuality.HIGH && isPermissionOrNotFoundError e) = false →
        generateMergedImage (some key) i1 i1m i2 i2m p ar q invoke =
          (.error (mapOuterError e), [makeRequest p i1 i1m i2 i2m ar (tierModel q)])) := by
  have hsize : (makeRequest p i1 i1m i2 i2m ar MODEL_STANDARD).imageConfig.imageSize = none := by
    simp [makeRequest, MODEL_STANDARD, MODEL_HIGH_RES]
  cases hatt : attempt invoke (makeRequest p i1 i1m i2 i2m ar (tierModel q)) with
  | ok s =>
    rw [gen_first_ok key i1 i1m i2 i2m p ar hk q invoke s hatt]
    refine ⟨by simp, Or.inl rfl, rfl, hsize, ?_⟩
    intro e he
    exact absurd he (by simp)
  | error fe =>
    by_cases hcls : (q == ImageQuality.HIGH && isPermissionOrNotFoundError fe) = true
    · rw [gen_first_error_fallback key i1 i1m i2 i2m p ar hk q invoke fe hatt hcls]
      have hq : q = ImageQuality.HIGH ∧ isPermissionOrNotFoundError fe = true := by
        simpa [Bool.and_eq_true] using hcls
      cases hatt2 : attempt invoke (makeRequest p i1 i1m i2 i2m ar MODEL_STANDARD) with
      | ok s2 =>
        refine ⟨⟨fun _ => ⟨hq.1, fe, rfl, hq.2⟩, fun _ => rfl⟩, Or.inr rfl, rfl, hsize, ?_⟩
        intro e he hfalse
        injection he with hfe
        subst hfe
        rw [hcls] at hfalse
        exact absurd hfalse (by decide)
      | error e2 =>
        refine ⟨⟨fun _ => ⟨hq.1, fe, rfl, hq.2⟩, fun _ => rfl⟩, Or.inr rfl, rfl, hsize, ?_⟩
        intro e he hfalse
        injection he with hfe
        subst hfe
        rw [hcls] at hfalse
        exact absurd hfalse (by decide)
    · have hclsf : (q == ImageQuality.HIGH && isPermissionOrNotFoundError fe) = false := by
        revert hcls
        cases (q == ImageQuality.HIGH && isPermissionOrNotFoundError fe) <;> simp
      rw [gen_first_error_no_fallback key i1 i1m i2 i2m p ar hk q invoke fe hatt hclsf]
      refine ⟨?_, Or.inl rfl, rfl, hsize, ?_⟩
      · constructor
        · intro h
          simp at h
        · rintro ⟨hqh, e, he, hcl⟩
          injection he with hfe
          subst hfe
          rw [hqh] at hclsf
          simp [hcl] at hclsf
      · intro e he hfalse
        injection he with hfe
        subst hfe
        rfl

/-- C1 witness: a High-tier call whose first attempt raises a 403 issues
exactly two requests. -/
theorem c1_fallback_characterization_witness :
    ((generateMergedImage (some "k") "A" "image/png" "B" "image/png" "p" "1:1" ImageQuality.HIGH invokeHigh403).2).length = 2 :=
  (c1_fallback_characterization "k" "A" "image/png" "B" "image/png" "p" "1:1" (by decide)
    ImageQuality.HIGH invokeHigh403).1.mpr ⟨rfl, err403, by decide, by decide⟩

/-- C2 counterexample: a High-tier call whose invocation succeeds but whose
extraction yields a ModelRefused failure with text containing
"PERMISSION_DENIED" does trigger the fallback: two requests are issued. -/
theorem c2_counterexample :
    extractImageFromResponse respTextPD = .error (jsError "PERMISSION_DENIED refused")
    ∧ ((generateMergedImage (some "k") "A" "image/png" "B" "image/png" "p" "1:1" ImageQuality.HIGH
          (fun _ => InvokeResult.ok respTextPD)).2).length = 2 :=
  ⟨by decide, by decide⟩

/-- C2 amended: on the High tier, when the invocation succeeds and the
extraction fails with an error whose message contains neither
"PERMISSION_DENIED" nor "403" (extraction errors never carry a status, so
the status checks of the classifier cannot match), no second request is
issued and the extraction error is the terminal outcome unchanged. -/
theorem c2_extraction_failure_no_fallback (key i1 i1m i2 i2m p ar : String) (hk : key ≠ "") (invoke : GenRequest → InvokeResult) (r : GenResponse) (e : JsErr)
    (hinv : invoke (makeRequest p i1 i1m i2 i2m ar (tierModel ImageQuality.HIGH)) = .ok r)
    (hext : extractImageFromResponse r = .error e)
    (hm : ∀ m, e.message = some m → jsIncludes m "PERMISSION_DENIED" = false ∧ jsIncludes m "403" = false) :
    generateMergedImage (some key) i1 i1m i2 i2m p ar ImageQuality.HIGH invoke =
      (.error e, [makeRequest p i1 i1m i2 i2m ar (tierModel ImageQuality.HIGH)]) := by
  obtain ⟨hstat, m, hmsg⟩ := extract_error_shape r e hext
  have hcls : isPermissionOrNotFoundError e = false := by
    simp [isPermissionOrNotFoundError, hstat, hmsg, (hm m hmsg).1, (hm m hmsg).2]
  have hmap : mapOuterError e = e := by
    simp [mapOuterError, hstat, hmsg, (hm m hmsg).1]
  have hatt : attempt invoke (makeRequest p i1 i1m i2 i2m ar (tierModel ImageQuality.HIGH)) = .error e := by
    unfold attempt
    rw [hinv]
    exact hext
  have hclsf : (ImageQuality.HIGH == ImageQuality.HIGH && isPermissionOrNotFoundError e) = false := by
    simp [hcls]
  rw [gen_first_error_no_fallback key i1 i1m i2 i2m p ar hk ImageQuality.HIGH invoke e hatt hclsf, hmap]

/-- C2 witness: a High-tier call whose response has no candidates fails with
the fixed no-image message and issues a single request. -/
theorem c2_extraction_failure_no_fallback_witness :
    generateMergedImage (some "k") "A" "image/png" "B" "image/png" "p" "1:1" ImageQuality.HIGH
        (fun _ => InvokeResult.ok { candidates := none }) =
      (.error (jsError NO_IMAGE_MSG), [makeRequest "p" "A" "image/png" "B" "image/png" "1:1" (tierModel ImageQuality.HIGH)]) :=
  c2_extraction_failure_no_fallback "k" "A" "image/png" "B" "image/png" "p" "1:1" (by decide)
    (fun _ => InvokeResult.ok { candidates := none }) { candidates := none } (jsError NO_IMAGE_MSG)
    rfl (by decide)
    (fun m hm => by
      obtain rfl : NO_IMAGE_MSG = m := Option.some.inj hm
      exact ⟨by decide, by decide⟩)

/-- C8 counterexample: a terminal invocation error with status 404 and the
message "Not Found" is classified AccessDenied by the fallback classifier,
yet the user-facing outcome carries the original error, not the fixed
access-denied message. -/
theorem c8_counterexample :
    isPermissionOrNotFoundError err404 = true
    ∧ (generateMergedImage (some "k") "A" "image/png" "B" "image/png" "p" "1:1" ImageQuality.STANDARD
        (fun _ => InvokeResult.err err404)).1 = .error err404
    ∧ (err404.message == some ACCESS_DENIED_MSG) = false :=
  ⟨by decide, by decide, by decide⟩

/-- C8 amended: the terminal outcome of a failing Standard-tier call is the
outer message mapping of the invocation error, and that mapping yields the
fixed access-denied message exactly when the error has status 403 or a
message containing "PERMISSION_DENIED"; other errors — including those
classified AccessDenied only via status 404 or the "403" substring — pass
through unchanged. -/
theorem c8_terminal_access_message (key i1 i1m i2 i2m p ar : String) (hk : key ≠ "") (invoke : GenRequest → InvokeResult) (e : JsErr)
    (hinv : invoke (makeRequest p i1 i1m i2 i2m ar (tierModel ImageQuality.STANDARD)) = .err e) :
    (generateMergedImage (some key) i1 i1m i2 i2m p ar ImageQuality.STANDARD invoke).1 = .error (mapOuterError e)
    ∧ (e.status = some 403 → mapOuterError e = jsError ACCESS_DENIED_MSG)
    ∧ (∀ m, e.message = some m → jsIncludes m "PERMISSION_DENIED" = true → mapOuterError e = jsError ACCESS_DENIED_MSG)
    ∧ (e.status ≠ some 403 → (∀ m, e.message = some m → jsIncludes m "PERMISSION_DENIED" = false) → mapOuterError e = e) := by
  have hatt : attempt invoke (makeRequest p i1 i1m i2 i2m ar (tierModel ImageQuality.STANDARD)) = .error e := by
    unfold attempt
    rw [hinv]
  refine ⟨?_, ?_, ?_, ?_⟩
  · unfold generateMergedImage
    rw [if_neg (by simp [hk])]
    rw [hatt]
    simp
  · intro h
    simp [mapOuterError, h]
  · intro m hm hin
    simp [mapOuterError, hm, hin]
  · intro hst hmm
    have h1 : (e.status == some 403) = false := beq_eq_false_iff_ne.mpr hst
    cases hm2 : e.message with
    | none => simp [mapOuterError, h1, hm2]
    | some m => simp [mapOuterError, h1, hm2, hmm m hm2]

/-- C8 witness: a Standard-tier call failing with a plain 403 ends in the
fixed access-denied message. -/
theorem c8_terminal_access_message_witness :
    (generateMergedImage (some "k") "A" "image/png" "B" "image/png" "p" "1:1" ImageQuality.STANDARD
        (fun _ => InvokeResult.err err403)).1 = .error (mapOuterError err403)
    ∧ mapOuterError err403 = jsError ACCESS_DENIED_MSG :=
  ⟨(c8_terminal_access_message "k" "A" "image/png" "B" "image/png" "p" "1:1" (by decide)
      (fun _ => InvokeResult.err err403) err403 rfl).1,
   (c8_terminal_access_message "k" "A" "image/png" "B" "image/png" "p" "1:1" (by decide)
      (fun _ => InvokeResult.err err403) err403 rfl).2.1 rfl⟩

set_option maxRecDepth 8192 in
/-- C9 counterexample: a Standard-tier call whose response is the refusal
text "PERMISSION_DENIED: cannot comply" does not surface that text: the
outer mapping replaces it with the fixed access-denied message. -/
theorem c9_counterexample :
    (generateMergedImage (some "k") "A" "image/png" "B" "image/png" "p" "1:1" ImageQuality.STANDARD
        (fun _ => InvokeResult.ok respTextPDColon)).1 = .error (jsError ACCESS_DENIED_MSG)
    ∧ (ACCESS_DENIED_MSG == "PERMISSION_DENIED: cannot comply") = false :=
  ⟨by decide, by decide⟩

/-- C9 amended: when the first candidate has no truthy inline data and its
first part carries non-empty text containing neither "PERMISSION_DENIED"
nor "403", the call (on either tier) terminates with exactly that text as
the error message, verbatim, after a single request. -/
theorem c9_refusal_text_verbatim (key i1 i1m i2 i2m p ar t : String) (q : ImageQuality) (invoke : GenRequest → InvokeResult) (r : GenResponse) (c : Candidate) (cs : List Candidate) (ct : Content) (p0 : Part) (ps : List Part)
    (hk : key ≠ "")
    (hinv : invoke (makeRequest p i1 i1m i2 i2m ar (tierModel q)) = .ok r)
    (hr : r.candidates = some (c :: cs)) (hc : c.content = some ct) (hp : ct.parts = some (p0 :: ps))
    (hall : ∀ x ∈ p0 :: ps, truthyData x = none)
    (ht : p0.text = some t) (hne : t ≠ "")
    (hpd : jsIncludes t "PERMISSION_DENIED" = false) (h403 : jsIncludes t "403" = false) :
    generateMergedImage (some key) i1 i1m i2 i2m p ar q invoke =
      (.error (jsError t), [makeRequest p i1 i1m i2 i2m ar (tierModel q)]) := by
  have hlt : leadingText r = some t := by
    simp [leadingText, hr, hc, hp, ht, hne]
  have hsc : afterScan r = .error (jsError t) := by
    unfold afterScan
    rw [hlt]
  have hnone : (p0 :: ps).findSome? truthyData = none := List.findSome?_eq_none_iff.mpr hall
  have hext : extractImageFromResponse r = .error (jsError t) := by
    rw [extract_eq_of_candidates_cons r c cs hr]
    simp only [hc, hp, hnone, hsc]
  have hatt : attempt invoke (makeRequest p i1 i1m i2 i2m ar (tierModel q)) = .error (jsError t) := by
    unfold attempt
    rw [hinv]
    exact hext
  have hcls : isPermissionOrNotFoundError (jsError t) = false := by
    simp [isPermissionOrNotFoundError, jsError, hpd, h403]
  have hmap : mapOuterError (jsError t) = jsError t := by
    simp [mapOuterError, jsError, hpd]
  have hclsf : (q == ImageQuality.HIGH && isPermissionOrNotFoundError (jsError t)) = false := by
    simp [hcls]
  rw [gen_first_error_no_fallback key i1 i1m i2 i2m p ar hk q invoke (jsError t) hatt hclsf, hmap]

/-- C9 witness: a Standard-tier refusal text free of the classifier
substrings surfaces verbatim. -/
theorem c9_refusal_text_verbatim_witness :
    generateMergedImage (some "k") "A" "image/png" "B" "image/png" "p" "1:1" ImageQuality.STANDARD
        (fun _ => InvokeResult.ok { candidates := some [{ content := some { parts := some [{ text := some "I cannot merge these images", inlineData := none }] } }] }) =
      (.error (jsError "I cannot merge these images"), [makeRequest "p" "A" "image/png" "B" "image/png" "1:1" (tierModel ImageQuality.STANDARD)]) :=
  c9_refusal_text_verbatim "k" "A" "image/png" "B" "image/png" "p" "1:1" "I cannot merge these images"
    ImageQuality.STANDARD
    (fun _ => InvokeResult.ok { candidates := some [{ content := some { parts := some [{ text := some "I cannot merge these images", inlineData := none }] } }] })
    { candidates := some [{ content := some { parts := some [{ text := some "I cannot merge these images", inlineData := none }] } }] }
    { content := some { parts := some [{ text := some "I cannot merge these images", inlineData := none }] } } []
    { parts := some [{ text := some "I cannot merge these images", inlineData := none }] }
    { text := some "I cannot merge these images", inlineData := none } []
    (by decide) rfl rfl rfl rfl (by decide) rfl (by decide) (by decide) (by decide)

end GeminiService
